import Mathlib

/-!
Verification of the HandsOff input-locking core.

This file shallowly embeds the session-state machine of the repository
(`src/app_state.rs`, `src/input_blocking/mod.rs`, `src/utils/mod.rs`,
`src/utils/keycode.rs`, `src/lib.rs`) in Lean and proves the frozen claims
about it.

Modelling conventions:
- `Instant` is modelled as a `Nat` number of seconds; `Instant::now()` becomes
  an explicit `now : Nat` argument, and `t.elapsed().as_secs()` becomes
  `now - t` (truncated subtraction, matching the non-negativity of Durations).
- The SHA-256 digest (`ring::digest` in `src/utils/mod.rs`) is an external
  library primitive, so the digest function is a parameter
  `hashFn : String → String` of every definition that hashes; theorems are
  proved for an arbitrary `hashFn` and therefore hold for SHA-256.
- The mutex-guarded `AppStateInner` becomes a plain record; each accessor
  method of `AppState` becomes a pure function on that record; each
  background-thread loop body becomes a `..._tick` function on the record.
-/

namespace HandsOff

/-- Modifier flags of a keyboard event (the three flags the handler reads
from `CGEventFlags`). -/
structure EventFlags where
  control : Bool
  command : Bool
  shift : Bool
deriving DecidableEq, Repr

/-- The two keyboard event types `handle_keyboard_event` distinguishes. -/
inductive CGEventType where
  | keyDown
  | keyUp
deriving DecidableEq, Repr

/-- `AppStateInner` from `src/app_state.rs` (timestamps as `Nat` seconds). -/
structure AppStateInner where
  is_locked : Bool
  input_buffer : String
  last_key_time : Option Nat
  last_input_time : Nat
  passphrase_hash : Option String
  auto_lock_timeout : Nat
  buffer_reset_timeout : Nat
  talk_key_pressed : Bool
  lock_start_time : Option Nat
  auto_unlock_timeout : Option Nat
  has_accessibility_permissions : Bool
  should_stop_event_tap : Bool
  should_start_event_tap : Bool
  should_exit : Bool
  is_disabled : Bool
  lock_keycode : Int
  talk_keycode : Int
deriving DecidableEq, Repr

/-- `AppState::set_locked` (`src/app_state.rs`): sets the flag and, on every
call with `locked = true`, records the current instant as `lock_start_time`;
on `locked = false` clears it. -/
def set_locked (st : AppStateInner) (locked : Bool) (now : Nat) : AppStateInner :=
  let st := { st with is_locked := locked }
  if locked then { st with lock_start_time := some now }
  else { st with lock_start_time := none }

/-- `AppState::update_input_time`. -/
def update_input_time (st : AppStateInner) (now : Nat) : AppStateInner :=
  { st with last_input_time := now }

/-- `AppState::update_key_time`. -/
def update_key_time (st : AppStateInner) (now : Nat) : AppStateInner :=
  { st with last_key_time := some now }

/-- `AppState::append_to_buffer`. -/
def append_to_buffer (st : AppStateInner) (ch : Char) : AppStateInner :=
  { st with input_buffer := st.input_buffer.push ch }

/-- `AppState::clear_buffer`. -/
def clear_buffer (st : AppStateInner) : AppStateInner :=
  { st with input_buffer := "" }

/-- `AppState::should_reset_buffer`: idle time since the last keystroke has
reached the buffer-reset timeout (no lock-state condition in the source). -/
def should_reset_buffer (st : AppStateInner) (now : Nat) : Bool :=
  match st.last_key_time with
  | some last_key => decide (st.buffer_reset_timeout ≤ now - last_key)
  | none => false

/-- `AppState::should_auto_lock`. -/
def should_auto_lock (st : AppStateInner) (now : Nat) : Bool :=
  !st.is_locked
    && decide (st.auto_lock_timeout ≤ now - st.last_input_time)
    && st.has_accessibility_permissions

/-- `AppState::should_auto_unlock`: locked, a non-zero timeout configured,
a recorded lock start, and at least that long elapsed since the lock. -/
def should_auto_unlock (st : AppStateInner) (now : Nat) : Bool :=
  if !st.is_locked || st.auto_unlock_timeout.isNone then false
  else
    let timeout_secs := st.auto_unlock_timeout.getD 0
    if timeout_secs = 0 then false
    else
      match st.lock_start_time with
      | some lock_start => decide (timeout_secs ≤ now - lock_start)
      | none => false

/-- `AppState::trigger_auto_unlock`: if locked, refresh `last_input_time`
(so the inactivity auto-lock cannot fire immediately), clear the lock flag,
clear `lock_start_time` and clear the buffer; otherwise do nothing. -/
def trigger_auto_unlock (st : AppStateInner) (now : Nat) : AppStateInner :=
  if st.is_locked then
    { st with
      last_input_time := now
      is_locked := false
      lock_start_time := none
      input_buffer := "" }
  else st

/-- `hash_passphrase` applies SHA-256 and hex-encodes; the digest function is
abstracted as `hashFn`. `verify_passphrase` (`src/utils/mod.rs`) compares the
candidate's digest with the stored one. -/
def verify_passphrase (hashFn : String → String) (passphrase : String)
    (hash : String) : Bool :=
  hashFn passphrase == hash

/-- `keycode_to_char` from `src/utils/keycode.rs`: macOS keycode plus shift
flag to the typed character; symbol characters are written via `Char.ofNat`
of their code points. -/
def keycode_to_char (keycode : Int) (shift : Bool) : Option Char :=
  match keycode with
  | 0 => some (if shift then 'A' else 'a')
  | 1 => some (if shift then 'S' else 's')
  | 2 => some (if shift then 'D' else 'd')
  | 3 => some (if shift then 'F' else 'f')
  | 4 => some (if shift then 'H' else 'h')
  | 5 => some (if shift then 'G' else 'g')
  | 6 => some (if shift then 'Z' else 'z')
  | 7 => some (if shift then 'X' else 'x')
  | 8 => some (if shift then 'C' else 'c')
  | 9 => some (if shift then 'V' else 'v')
  | 11 => some (if shift then 'B' else 'b')
  | 12 => some (if shift then 'Q' else 'q')
  | 13 => some (if shift then 'W' else 'w')
  | 14 => some (if shift then 'E' else 'e')
  | 15 => some (if shift then 'R' else 'r')
  | 16 => some (if shift then 'Y' else 'y')
  | 17 => some (if shift then 'T' else 't')
  | 31 => some (if shift then 'O' else 'o')
  | 32 => some (if shift then 'U' else 'u')
  | 34 => some (if shift then 'I' else 'i')
  | 35 => some (if shift then 'P' else 'p')
  | 37 => some (if shift then 'L' else 'l')
  | 38 => some (if shift then 'J' else 'j')
  | 40 => some (if shift then 'K' else 'k')
  | 45 => some (if shift then 'N' else 'n')
  | 46 => some (if shift then 'M' else 'm')
  | 18 => some (if shift then Char.ofNat 33 else '1')
  | 19 => some (if shift then Char.ofNat 64 else '2')
  | 20 => some (if shift then Char.ofNat 35 else '3')
  | 21 => some (if shift then Char.ofNat 36 else '4')
  | 23 => some (if shift then Char.ofNat 37 else '5')
  | 22 => some (if shift then Char.ofNat 94 else '6')
  | 26 => some (if shift then Char.ofNat 38 else '7')
  | 28 => some (if shift then Char.ofNat 42 else '8')
  | 25 => some (if shift then Char.ofNat 40 else '9')
  | 29 => some (if shift then Char.ofNat 41 else '0')
  | 27 => some (if shift then Char.ofNat 95 else Char.ofNat 45)
  | 24 => some (if shift then Char.ofNat 43 else Char.ofNat 61)
  | 33 => some (if shift then Char.ofNat 123 else Char.ofNat 91)
  | 30 => some (if shift then Char.ofNat 125 else Char.ofNat 93)
  | 41 => some (if shift then Char.ofNat 58 else Char.ofNat 59)
  | 39 => some (if shift then Char.ofNat 34 else Char.ofNat 39)
  | 42 => some (if shift then Char.ofNat 124 else Char.ofNat 92)
  | 43 => some (if shift then Char.ofNat 60 else Char.ofNat 44)
  | 47 => some (if shift then Char.ofNat 62 else Char.ofNat 46)
  | 44 => some (if shift then Char.ofNat 63 else Char.ofNat 47)
  | 50 => some (if shift then Char.ofNat 126 else Char.ofNat 96)
  | 49 => some ' '
  | 36 => some (Char.ofNat 10)
  | 76 => some (Char.ofNat 10)
  | 48 => some (Char.ofNat 9)
  | 51 => none
  | _ => none

/-- `handle_keyboard_event` from `src/input_blocking/mod.rs` as a pure state
transformer. Returns `(blocked, new state)` where `blocked = true` means the
event is suppressed. -/
def handle_keyboard_event (hashFn : String → String) (keycode : Int)
    (flags : EventFlags) (event_type : CGEventType) (st : AppStateInner)
    (now : Nat) : Bool × AppStateInner :=
  if keycode == 37 && flags.control && flags.command && flags.shift then
    let st :=
      if event_type == CGEventType.keyDown && !st.is_locked then
        set_locked st true now
      else st
    (true, st)
  else if keycode == 17 && flags.control && flags.command && flags.shift then
    let st :=
      if event_type == CGEventType.keyDown then { st with talk_key_pressed := true }
      else { st with talk_key_pressed := false }
    (true, st)
  else if st.talk_key_pressed && keycode == 49 then
    (false, st)
  else if !st.is_locked then
    (false, update_input_time st now)
  else if event_type != CGEventType.keyDown then
    (true, st)
  else if keycode == 51 then
    let buffer := st.input_buffer
    let st :=
      if !buffer.isEmpty then { st with input_buffer := buffer.dropRight 1 }
      else st
    (true, update_key_time st now)
  else
    match keycode_to_char keycode flags.shift with
    | some ch =>
      let st := update_key_time (append_to_buffer st ch) now
      match st.passphrase_hash with
      | some hash =>
        if verify_passphrase hashFn st.input_buffer hash then
          (true, clear_buffer (set_locked st false now))
        else (true, st)
      | none => (true, st)
    | none => (true, st)

/-- `HandsOffCore::unlock` (`src/lib.rs`): hash the candidate, compare with the
stored digest; on a match call `set_locked(false)` and return `true`, otherwise
return `false` leaving the state untouched. -/
def HandsOffCore_unlock (hashFn : String → String) (passphrase : String)
    (st : AppStateInner) (now : Nat) : Bool × AppStateInner :=
  let hash := hashFn passphrase
  if some hash == st.passphrase_hash then (true, set_locked st false now)
  else (false, st)

/-- Result of `HandsOffCore::lock`: success or the permission-denied bail. -/
inductive LockResult where
  | ok
  | permissionDenied
deriving DecidableEq, Repr

/-- `HandsOffCore::lock` (`src/lib.rs`): bail with a PermissionDenied-class
error when the cached accessibility permission flag is false, otherwise
`set_locked(true)`. -/
def HandsOffCore_lock (st : AppStateInner) (now : Nat) :
    LockResult × AppStateInner :=
  if !st.has_accessibility_permissions then (LockResult.permissionDenied, st)
  else (LockResult.ok, set_locked st true now)

/-- One iteration of the buffer-reset supervisor loop in
`start_buffer_reset_thread` (`src/lib.rs`): skip when disabled, otherwise
clear the buffer when `should_reset_buffer` holds and the buffer is
non-empty. -/
def buffer_reset_tick (st : AppStateInner) (now : Nat) : AppStateInner :=
  if st.is_disabled then st
  else if should_reset_buffer st now then
    if !st.input_buffer.isEmpty then clear_buffer st else st
  else st

/-- One iteration of the auto-unlock supervisor loop in
`start_auto_unlock_thread` (`src/lib.rs`). -/
def auto_unlock_tick (st : AppStateInner) (now : Nat) : AppStateInner :=
  if st.is_disabled then st
  else if should_auto_unlock st now then trigger_auto_unlock st now
  else st

/-- One iteration of the permission-monitor loop in
`start_permission_monitor_thread` (`src/lib.rs`): given the previously
observed permission state and the freshly polled one, on loss force an unlock
(if locked) and request an interception stop; on restoration request a start;
finally refresh the cached flag. Returns the new state and the new
last-observed value. -/
def permission_monitor_tick (st : AppStateInner) (last_permission_state : Bool)
    (has_permissions : Bool) (now : Nat) : AppStateInner × Bool :=
  if st.is_disabled then (st, last_permission_state)
  else
    let st :=
      if last_permission_state && !has_permissions then
        let st := if st.is_locked then set_locked st false now else st
        { st with should_stop_event_tap := true }
      else if !last_permission_state && has_permissions then
        { st with should_start_event_tap := true }
      else st
    ({ st with has_accessibility_permissions := has_permissions },
      has_permissions)

/-- Flags record with no modifier held. -/
def noFlags : EventFlags := ⟨false, false, false⟩

/-- Feed a list of key-down events (no modifiers) through
`handle_keyboard_event`, threading the state. -/
def process_key_downs (hashFn : String → String) (keycodes : List Int)
    (st : AppStateInner) (now : Nat) : AppStateInner :=
  match keycodes with
  | [] => st
  | kc :: rest =>
    process_key_downs hashFn rest
      (handle_keyboard_event hashFn kc noFlags CGEventType.keyDown st now).2 now

/-- A concrete locked session state holding the given stored digest, used to
instantiate scenarios. -/
def scenario_state (digest : String) : AppStateInner where
  is_locked := true
  input_buffer := ""
  last_key_time := none
  last_input_time := 0
  passphrase_hash := some digest
  auto_lock_timeout := 300
  buffer_reset_timeout := 30
  talk_key_pressed := false
  lock_start_time := some 0
  auto_unlock_timeout := none
  has_accessibility_permissions := true
  should_stop_event_tap := false
  should_start_event_tap := false
  should_exit := false
  is_disabled := false
  lock_keycode := 37
  talk_keycode := 17

/-- A transparent digest function used to instantiate `hashFn` in concrete
evaluations; every theorem below quantifies over an arbitrary digest
function, so SHA-256 is covered. -/
def idHash : String → String := fun s => s

/-- A concrete unlocked session state (for concrete evaluations). -/
def unlocked_state (digest : String) : AppStateInner :=
  { scenario_state digest with is_locked := false, lock_start_time := none }

/-- Claim C9: for every plaintext `P`, `verify(P, hash(P))` is true; for every
candidate `C` and digest `D`, `verify(C, D)` is exactly the equality
comparison of `hash(C)` with `D`; and the digest function is deterministic
(two applications to the same input agree). -/
theorem c9_verifier_correct (hashFn : String → String) (P C D : String) :
    verify_passphrase hashFn P (hashFn P) = true ∧
    verify_passphrase hashFn C D = (hashFn C == D) ∧
    (verify_passphrase hashFn C D = true ↔ hashFn C = D) ∧
    hashFn P = hashFn P := by
  refine ⟨?_, rfl, ?_, rfl⟩
  · simp [verify_passphrase]
  · simp [verify_passphrase]

/-- Claim C8: while `talk_key_pressed` is true, a spacebar event (keycode 49)
passes through unsuppressed and leaves the session state unchanged, whatever
the lock state, modifiers or event type. -/
theorem c8_talk_spacebar_passthrough (hashFn : String → String)
    (flags : EventFlags) (event_type : CGEventType) (st : AppStateInner)
    (now : Nat) (h : st.talk_key_pressed = true) :
    handle_keyboard_event hashFn 49 flags event_type st now = (false, st) := by
  simp [handle_keyboard_event, h]

/-- Witness for C8 at a concrete locked state with the talk key held. -/
theorem c8_talk_spacebar_passthrough_witness :
    handle_keyboard_event idHash 49 noFlags CGEventType.keyDown
      { scenario_state "pw" with talk_key_pressed := true } 0 =
    (false, { scenario_state "pw" with talk_key_pressed := true }) :=
  c8_talk_spacebar_passthrough idHash noFlags CGEventType.keyDown
    { scenario_state "pw" with talk_key_pressed := true } 0 (by decide)

/-- Claim C7: `lock()` fails with the PermissionDenied-class error exactly when
the cached accessibility-permission flag is false, leaving the state
unchanged; with the flag true it succeeds and the state is locked. -/
theorem c7_lock_permission_gate (st : AppStateInner) (now : Nat) :
    (st.has_accessibility_permissions = false →
      HandsOffCore_lock st now = (LockResult.permissionDenied, st)) ∧
    (st.has_accessibility_permissions = true →
      HandsOffCore_lock st now = (LockResult.ok, set_locked st true now) ∧
      (HandsOffCore_lock st now).2.is_locked = true) := by
  constructor
  · intro h
    simp [HandsOffCore_lock, h]
  · intro h
    simp [HandsOffCore_lock, h, set_locked]

/-- Witness for C7: denied on a concrete permissionless state (state returned
unchanged, so `locked` stays false), locking a concrete permitted state. -/
theorem c7_lock_permission_gate_witness :
    HandsOffCore_lock
        { unlocked_state "pw" with has_accessibility_permissions := false } 3 =
      (LockResult.permissionDenied,
        { unlocked_state "pw" with has_accessibility_permissions := false }) ∧
    (HandsOffCore_lock (unlocked_state "pw") 3).2.is_locked = true := by
  refine ⟨(c7_lock_permission_gate _ 3).1 (by decide),
    ((c7_lock_permission_gate (unlocked_state "pw") 3).2 (by decide)).2⟩

/-- Claim C3: `trigger_auto_unlock` on a locked state refreshes
`last_input_time` to the current instant and leaves the state unlocked with
`lock_start_time` cleared and an empty buffer; on an unlocked state it is the
identity. -/
theorem c3_trigger_auto_unlock_spec (st : AppStateInner) (now : Nat) :
    (st.is_locked = true →
      trigger_auto_unlock st now =
        { st with
            last_input_time := now
            is_locked := false
            lock_start_time := none
            input_buffer := "" } ∧
      (trigger_auto_unlock st now).last_input_time = now ∧
      (trigger_auto_unlock st now).is_locked = false ∧
      (trigger_auto_unlock st now).lock_start_time = none ∧
      (trigger_auto_unlock st now).input_buffer = "") ∧
    (st.is_locked = false → trigger_auto_unlock st now = st) := by
  constructor
  · intro h
    simp [trigger_auto_unlock, h]
  · intro h
    simp [trigger_auto_unlock, h]

/-- Witness for C3 at a concrete locked state (with a stale buffer) and a
concrete unlocked state. -/
theorem c3_trigger_auto_unlock_spec_witness :
    (trigger_auto_unlock { scenario_state "pw" with input_buffer := "ab" } 7
        = { scenario_state "pw" with
              input_buffer := ""
              last_input_time := 7
              is_locked := false
              lock_start_time := none } ∧
      (trigger_auto_unlock { scenario_state "pw" with input_buffer := "ab" } 7).last_input_time = 7 ∧
      (trigger_auto_unlock { scenario_state "pw" with input_buffer := "ab" } 7).is_locked = false ∧
      (trigger_auto_unlock { scenario_state "pw" with input_buffer := "ab" } 7).lock_start_time = none ∧
      (trigger_auto_unlock { scenario_state "pw" with input_buffer := "ab" } 7).input_buffer = "") ∧
    trigger_auto_unlock (unlocked_state "pw") 7 = unlocked_state "pw" := by
  refine ⟨?_, (c3_trigger_auto_unlock_spec (unlocked_state "pw") 7).2 (by decide)⟩
  have h := (c3_trigger_auto_unlock_spec
    { scenario_state "pw" with input_buffer := "ab" } 7).1 (by decide)
  exact h

/-- Claim C5 counterexample: starting from an unlocked state, `set_locked(true)`
at time 0 records `lock_start_time = some 0`, but a second `set_locked(true)`
call at time 5 does not leave the state identical to the first call: it
overwrites `lock_start_time` with `some 5`. -/
theorem c5_counterexample :
    set_locked (set_locked (unlocked_state "pw") true 0) true 5 ≠
      set_locked (unlocked_state "pw") true 0 ∧
    (set_locked (unlocked_state "pw") true 0).lock_start_time = some 0 ∧
    (set_locked (set_locked (unlocked_state "pw") true 0) true 5).lock_start_time
      = some 5 := by
  decide

/-- Claim C5, amended: `set_locked(true)` on an already-locked state leaves
every field unchanged except `lock_start_time`, which is overwritten with the
current instant — the call, not only the unlocked-to-locked transition,
records the time; so repeating the call is idempotent only at the same
instant. -/
theorem c5_set_locked_relock (st : AppStateInner) (now : Nat) :
    (st.is_locked = true →
      set_locked st true now = { st with lock_start_time := some now }) ∧
    set_locked (set_locked st true now) true now = set_locked st true now := by
  constructor
  · intro h
    cases st
    simp_all [set_locked]
  · cases st
    simp [set_locked]

/-- Witness for C5's amended theorem at a concrete locked state. -/
theorem c5_set_locked_relock_witness :
    set_locked (scenario_state "pw") true 5 =
      { scenario_state "pw" with lock_start_time := some 5 } :=
  (c5_set_locked_relock (scenario_state "pw") 5).1 (by decide)

/-- Claim C4: with a non-zero timeout `T` configured and the lock engaged at
time 0, `should_auto_unlock` is false before `T` seconds have elapsed and true
at or after `T`; it is false whenever the timeout is absent or zero, the state
is unlocked, or no lock start is recorded. -/
theorem c4_should_auto_unlock_boundary (st : AppStateInner) (now T : Nat) :
    (st.is_locked = true → st.auto_unlock_timeout = some T → 0 < T →
      st.lock_start_time = some 0 →
      (should_auto_unlock st now = true ↔ T ≤ now)) ∧
    (st.auto_unlock_timeout = none → should_auto_unlock st now = false) ∧
    (st.auto_unlock_timeout = some 0 → should_auto_unlock st now = false) ∧
    (st.is_locked = false → should_auto_unlock st now = false) ∧
    (st.lock_start_time = none → should_auto_unlock st now = false) := by
  refine ⟨?_, ?_, ?_, ?_, ?_⟩
  · intro hl ht hT hs
    have hT' : T ≠ 0 := Nat.pos_iff_ne_zero.mp hT
    simp [should_auto_unlock, hl, ht, hs, hT']
  · intro h
    simp [should_auto_unlock, h]
  · intro h
    cases hl : st.is_locked <;> simp [should_auto_unlock, h, hl]
  · intro h
    simp [should_auto_unlock, h]
  · intro h
    cases hl : st.is_locked
    · simp [should_auto_unlock, hl]
    · cases ht : st.auto_unlock_timeout with
      | none => simp [should_auto_unlock, hl, ht]
      | some t =>
        by_cases h0 : t = 0 <;> simp [should_auto_unlock, hl, ht, h, h0]

/-- Witness for C4: with timeout 60 and lock at time 0, false at 59, true at
60; `some 0` and the unlocked / no-timeout cases never trigger. -/
theorem c4_should_auto_unlock_boundary_witness :
    should_auto_unlock
        { scenario_state "pw" with auto_unlock_timeout := some 60 } 59 = false ∧
    should_auto_unlock
        { scenario_state "pw" with auto_unlock_timeout := some 60 } 60 = true ∧
    should_auto_unlock
        { scenario_state "pw" with auto_unlock_timeout := some 0 } 1000 = false ∧
    should_auto_unlock (scenario_state "pw") 1000 = false ∧
    should_auto_unlock (unlocked_state "pw") 1000 = false := by
  refine ⟨?_, ?_, ?_, ?_, ?_⟩
  · have h := (c4_should_auto_unlock_boundary
      { scenario_state "pw" with auto_unlock_timeout := some 60 } 59 60).1
      (by decide) (by decide) (by decide) (by decide)
    simpa using h
  · exact (c4_should_auto_unlock_boundary
      { scenario_state "pw" with auto_unlock_timeout := some 60 } 60 60).1
      (by decide) (by decide) (by decide) (by decide) |>.mpr (by decide)
  · exact (c4_should_auto_unlock_boundary
      { scenario_state "pw" with auto_unlock_timeout := some 0 } 1000 0).2.2.1
      (by decide)
  · exact (c4_should_auto_unlock_boundary (scenario_state "pw") 1000 0).2.1
      (by decide)
  · exact (c4_should_auto_unlock_boundary (unlocked_state "pw") 1000 0).2.2.2.1
      (by decide)

/-- Claim C6 counterexample: the buffer-reset supervisor clears a non-empty
buffer on an UNLOCKED, idle state — the source checks no lock condition. -/
theorem c6_counterexample :
    ({ unlocked_state "pw" with
        input_buffer := "x", last_key_time := some 0 } : AppStateInner).is_locked
      = false ∧
    (buffer_reset_tick
        { unlocked_state "pw" with input_buffer := "x", last_key_time := some 0 }
        30).input_buffer = "" := by
  decide

/-- Claim C6, amended: the buffer-reset supervisor clears the buffer exactly
when the app is not disabled, a last-keystroke time is recorded, the buffer is
non-empty and the idle time since the last keystroke has reached the
configured reset timeout — independently of the lock flag. -/
theorem c6_buffer_reset_conditions (st : AppStateInner) (now : Nat) :
    (st.is_disabled = true → buffer_reset_tick st now = st) ∧
    (st.last_key_time = none → buffer_reset_tick st now = st) ∧
    (∀ lk, st.is_disabled = false → st.last_key_time = some lk →
      st.input_buffer ≠ "" →
      ((buffer_reset_tick st now).input_buffer = "" ↔
        st.buffer_reset_timeout ≤ now - lk)) := by
  refine ⟨?_, ?_, ?_⟩
  · intro h
    simp [buffer_reset_tick, h]
  · intro h
    cases hd : st.is_disabled <;>
      simp [buffer_reset_tick, should_reset_buffer, h, hd]
  · intro lk hd hk hb
    have hbe : st.input_buffer.isEmpty = false := by
      cases hbe : st.input_buffer.isEmpty
      · rfl
      · exact absurd ((String.isEmpty_iff st.input_buffer).mp hbe) hb
    by_cases hc : st.buffer_reset_timeout ≤ now - lk <;>
      simp [buffer_reset_tick, should_reset_buffer, clear_buffer, hd, hk, hb,
        hbe, hc]

/-- Witness for C6's amended theorem: clearing at the deadline on an unlocked
state, not clearing one second earlier, and the disabled state untouched. -/
theorem c6_buffer_reset_conditions_witness :
    (buffer_reset_tick
        { unlocked_state "pw" with input_buffer := "x", last_key_time := some 0 }
        30).input_buffer = "" ∧
    ¬ (buffer_reset_tick
        { unlocked_state "pw" with input_buffer := "x", last_key_time := some 0 }
        29).input_buffer = "" ∧
    buffer_reset_tick
        { scenario_state "pw" with
            input_buffer := "x", last_key_time := some 0, is_disabled := true }
        1000 =
      { scenario_state "pw" with
          input_buffer := "x", last_key_time := some 0, is_disabled := true } := by
  refine ⟨?_, ?_, ?_⟩
  · exact ((c6_buffer_reset_conditions
      { unlocked_state "pw" with input_buffer := "x", last_key_time := some 0 }
      30).2.2 0 (by decide) (by decide) (by decide)).mpr (by decide)
  · intro hc
    exact absurd (((c6_buffer_reset_conditions
      { unlocked_state "pw" with input_buffer := "x", last_key_time := some 0 }
      29).2.2 0 (by decide) (by decide) (by decide)).mp hc) (by decide)
  · exact (c6_buffer_reset_conditions
      { scenario_state "pw" with
          input_buffer := "x", last_key_time := some 0, is_disabled := true }
      1000).1 (by decide)

/-- Helper: on a locked state, a key-down event that is neither hotkey
combination, not the talk passthrough and not backspace, whose keycode
classifies to a character, takes the passphrase-entry path of
`handle_keyboard_event`. -/
theorem handle_keyDown_locked_printable (hashFn : String → String) (kc : Int)
    (flags : EventFlags) (st : AppStateInner) (now : Nat) (ch : Char)
    (hl : st.is_locked = true)
    (hch : keycode_to_char kc flags.shift = some ch)
    (h37 : (kc == 37 && flags.control && flags.command && flags.shift) = false)
    (h17 : (kc == 17 && flags.control && flags.command && flags.shift) = false)
    (h49 : (st.talk_key_pressed && kc == 49) = false) :
    handle_keyboard_event hashFn kc flags CGEventType.keyDown st now =
      match st.passphrase_hash with
      | some d =>
        if verify_passphrase hashFn (st.input_buffer.push ch) d then
          (true, clear_buffer
            (set_locked (update_key_time (append_to_buffer st ch) now) false now))
        else (true, update_key_time (append_to_buffer st ch) now)
      | none => (true, update_key_time (append_to_buffer st ch) now) := by
  have h51 : (kc == 51) = false := by
    cases hkc : kc == 51
    · rfl
    · exfalso
      have hkc2 : kc = 51 := by simpa using hkc
      subst hkc2
      have hnone : keycode_to_char 51 flags.shift = none := rfl
      rw [hnone] at hch
      exact Option.noConfusion hch
  cases hph : st.passphrase_hash with
  | none =>
    simp [handle_keyboard_event, hl, h37, h17, h49, h51, hch, hph,
      update_key_time, append_to_buffer]
  | some d =>
    by_cases hv : verify_passphrase hashFn (st.input_buffer.push ch) d = true
    · simp [handle_keyboard_event, hl, h37, h17, h49, h51, hch, hph, hv,
        update_key_time, append_to_buffer]
    · have hv2 : verify_passphrase hashFn (st.input_buffer.push ch) d = false := by
        simpa using hv
      simp [handle_keyboard_event, hl, h37, h17, h49, h51, hch, hph, hv2,
        update_key_time, append_to_buffer]

/-- Helper: on a locked state, any keyboard event leaves the state either
still locked or with an empty buffer (the only unlocking path clears the
buffer), and never touches `last_input_time`. -/
theorem handle_locked_invariants (hashFn : String → String) (kc : Int)
    (flags : EventFlags) (etype : CGEventType) (st : AppStateInner) (now : Nat)
    (hl : st.is_locked = true) :
    ((handle_keyboard_event hashFn kc flags etype st now).2.is_locked = true ∨
      (handle_keyboard_event hashFn kc flags etype st now).2.input_buffer = "") ∧
    (handle_keyboard_event hashFn kc flags etype st now).2.last_input_time
      = st.last_input_time := by
  rcases hch : keycode_to_char kc flags.shift with _ | ch
  · simp only [handle_keyboard_event, hch, hl, update_key_time,
      update_input_time, clear_buffer, set_locked, append_to_buffer]
    split_ifs <;>
      first
        | exact ⟨Or.inl rfl, rfl⟩
        | exact ⟨Or.inl hl, rfl⟩
        | exact ⟨Or.inr rfl, rfl⟩
        | simp_all
  · rcases hph : st.passphrase_hash with _ | d
    · simp only [handle_keyboard_event, hch, hph, hl, update_key_time,
        update_input_time, clear_buffer, set_locked, append_to_buffer]
      split_ifs <;>
        first
          | exact ⟨Or.inl rfl, rfl⟩
          | exact ⟨Or.inl hl, rfl⟩
          | exact ⟨Or.inr rfl, rfl⟩
          | simp_all
    · simp only [handle_keyboard_event, hch, hph, hl, update_key_time,
        update_input_time, clear_buffer, set_locked, append_to_buffer]
      clear hch hph
      split_ifs <;>
        first
          | exact ⟨Or.inl rfl, rfl⟩
          | exact ⟨Or.inl hl, rfl⟩
          | exact ⟨Or.inr rfl, rfl⟩
          | simp_all

/-- Helper: while unlocked with the talk key not held, a run of unmodified
key-down events passes through, keeping the state unlocked and the buffer
untouched. -/
theorem process_key_downs_unlocked (hashFn : String → String)
    (kcs : List Int) :
    ∀ (st : AppStateInner) (now : Nat), st.is_locked = false →
      st.talk_key_pressed = false →
      (process_key_downs hashFn kcs st now).is_locked = false ∧
      (process_key_downs hashFn kcs st now).input_buffer = st.input_buffer := by
  induction kcs with
  | nil =>
    intro st now hl _
    exact ⟨hl, rfl⟩
  | cons kc rest ih =>
    intro st now hl ht
    have hstep : handle_keyboard_event hashFn kc noFlags CGEventType.keyDown st now
        = (false, update_input_time st now) := by
      simp [handle_keyboard_event, noFlags, hl, ht]
    simp only [process_key_downs, hstep]
    have h := ih (update_input_time st now) now (by simp [update_input_time, hl])
      (by simp [update_input_time, ht])
    exact ⟨h.1, by simpa [update_input_time] using h.2⟩

/-- Helper: from a locked state with stored digest `hashFn p` and the talk key
not held, typing (without modifiers) keycodes whose characters extend the
current buffer exactly to `p` ends with the state unlocked and the buffer
empty — regardless of whether an intermediate buffer collides with the digest
under `hashFn`. -/
theorem process_key_downs_entry (hashFn : String → String) (p : String) :
    ∀ (kcs : List Int) (chs : List Char) (st : AppStateInner) (now : Nat),
      st.is_locked = true → st.talk_key_pressed = false →
      st.passphrase_hash = some (hashFn p) →
      kcs.map (fun kc => keycode_to_char kc false) = chs.map some →
      List.foldl String.push st.input_buffer chs = p →
      kcs ≠ [] →
      (process_key_downs hashFn kcs st now).is_locked = false ∧
      (process_key_downs hashFn kcs st now).input_buffer = "" := by
  intro kcs
  induction kcs with
  | nil =>
    intro chs st now _ _ _ _ _ hne
    exact absurd rfl hne
  | cons kc rest ih =>
    intro chs st now hl ht hd hmap hfold _
    cases chs with
    | nil => simp at hmap
    | cons ch chs2 =>
      simp only [List.map_cons] at hmap
      injection hmap with hch hmap2
      have hstep := handle_keyDown_locked_printable hashFn kc noFlags st now ch hl
        hch (by simp [noFlags]) (by simp [noFlags]) (by simp [ht])
      simp only [process_key_downs, hstep, hd]
      by_cases hv : verify_passphrase hashFn (st.input_buffer.push ch) (hashFn p) = true
      · simp only [hv, if_true]
        have h := process_key_downs_unlocked hashFn rest
          (clear_buffer (set_locked (update_key_time (append_to_buffer st ch) now) false now))
          now
          (by simp [clear_buffer, set_locked, update_key_time, append_to_buffer])
          (by simp [clear_buffer, set_locked, update_key_time, append_to_buffer, ht])
        exact ⟨h.1, by
          simpa [clear_buffer, set_locked, update_key_time, append_to_buffer] using h.2⟩
      · have hv' : verify_passphrase hashFn (st.input_buffer.push ch) (hashFn p)
            = false := by simpa using hv
        simp only [hv', if_false]
        cases rest with
        | nil =>
          exfalso
          have hchs2 : chs2 = [] := by simpa using hmap2.symm
          subst hchs2
          simp only [List.foldl_cons, List.foldl_nil] at hfold
          rw [hfold] at hv'
          simp [verify_passphrase] at hv'
        | cons kc2 rest2 =>
          refine ih chs2 (update_key_time (append_to_buffer st ch) now) now
            (by simp [update_key_time, append_to_buffer, hl])
            (by simp [update_key_time, append_to_buffer, ht])
            (by simp [update_key_time, append_to_buffer, hd])
            hmap2 ?_ (by simp)
          simpa [update_key_time, append_to_buffer] using hfold

/-- Claim C1: on a locked state with a stored digest, a key-down whose keycode
classifies to a printable character (and which is not a hotkey combination,
not the talk passthrough) is suppressed, appends that character to the
buffer, refreshes `last_key_time`, and unlocks with a cleared buffer exactly
when the verifier matches the extended buffer against the digest; in
particular, with passphrase `"correct"`, typing the seven characters of
`"correct"` one key-down at a time while locked (for any digest function)
ends unlocked with an empty buffer. -/
theorem c1_locked_printable_entry :
    (∀ (hashFn : String → String) (kc : Int) (flags : EventFlags)
        (st : AppStateInner) (now : Nat) (ch : Char) (d : String),
      st.is_locked = true →
      st.passphrase_hash = some d →
      keycode_to_char kc flags.shift = some ch →
      (kc == 37 && flags.control && flags.command && flags.shift) = false →
      (kc == 17 && flags.control && flags.command && flags.shift) = false →
      (st.talk_key_pressed && kc == 49) = false →
      (handle_keyboard_event hashFn kc flags CGEventType.keyDown st now).1 = true ∧
      (handle_keyboard_event hashFn kc flags CGEventType.keyDown st now).2.last_key_time
        = some now ∧
      (handle_keyboard_event hashFn kc flags CGEventType.keyDown st now).2.input_buffer
        = (if verify_passphrase hashFn (st.input_buffer.push ch) d then ""
           else st.input_buffer.push ch) ∧
      ((handle_keyboard_event hashFn kc flags CGEventType.keyDown st now).2.is_locked
          = false
        ↔ verify_passphrase hashFn (st.input_buffer.push ch) d = true)) ∧
    (∀ hashFn : String → String,
      (process_key_downs hashFn [8, 31, 15, 15, 14, 8, 17]
          (scenario_state (hashFn "correct")) 0).is_locked = false ∧
      (process_key_downs hashFn [8, 31, 15, 15, 14, 8, 17]
          (scenario_state (hashFn "correct")) 0).input_buffer = "") := by
  constructor
  · intro hashFn kc flags st now ch d hl hd hch h37 h17 h49
    have hstep := handle_keyDown_locked_printable hashFn kc flags st now ch hl
      hch h37 h17 h49
    rw [hstep]
    by_cases hv : verify_passphrase hashFn (st.input_buffer.push ch) d = true
    · simp [hd, hv, clear_buffer, set_locked, update_key_time, append_to_buffer]
    · have hv2 : verify_passphrase hashFn (st.input_buffer.push ch) d = false := by
        simpa using hv
      simp [hd, hv2, hl, update_key_time, append_to_buffer]
  · intro hashFn
    exact process_key_downs_entry hashFn "correct"
      [8, 31, 15, 15, 14, 8, 17] ['c', 'o', 'r', 'r', 'e', 'c', 't']
      (scenario_state (hashFn "correct")) 0 rfl rfl rfl (by decide)
      (by show List.foldl String.push "" ['c', 'o', 'r', 'r', 'e', 'c', 't']
            = "correct"
          decide)
      (by simp)

/-- Witness for C1: a concrete first keystroke (keycode 8, `'c'`) on the
locked `"correct"` session is suppressed and buffers `"c"`, and the concrete
seven-keystroke run ends unlocked with an empty buffer. -/
theorem c1_locked_printable_entry_witness :
    (handle_keyboard_event idHash 8 noFlags CGEventType.keyDown
        (scenario_state "correct") 0).1 = true ∧
    (handle_keyboard_event idHash 8 noFlags CGEventType.keyDown
        (scenario_state "correct") 0).2.input_buffer = "c" ∧
    (process_key_downs idHash [8, 31, 15, 15, 14, 8, 17]
        (scenario_state "correct") 0).is_locked = false ∧
    (process_key_downs idHash [8, 31, 15, 15, 14, 8, 17]
        (scenario_state "correct") 0).input_buffer = "" := by
  have h1 := c1_locked_printable_entry.1 idHash 8 noFlags
    (scenario_state "correct") 0 'c' "correct" rfl rfl (by decide) (by decide)
    (by decide) (by decide)
  have h2 := c1_locked_printable_entry.2 idHash
  refine ⟨h1.1, ?_, h2.1, h2.2⟩
  rw [h1.2.2.1]
  decide

/-- Claim C2 counterexample: `unlock` with the correct passphrase on a locked
state whose buffer holds a stray character reports success and unlocks, but
leaves the buffer non-empty — the controller's unlock path does not clear
`input_buffer`. -/
theorem c2_counterexample :
    (HandsOffCore_unlock idHash "pw"
        { scenario_state "pw" with input_buffer := "x" } 4).1 = true ∧
    (HandsOffCore_unlock idHash "pw"
        { scenario_state "pw" with input_buffer := "x" } 4).2.is_locked = false ∧
    (HandsOffCore_unlock idHash "pw"
        { scenario_state "pw" with input_buffer := "x" } 4).2.input_buffer = "x" := by
  decide

/-- Claim C2, amended: of the four locked-to-unlocked transitions, the safety
auto-unlock and the engine's passphrase-match path leave the buffer empty,
while `unlock(candidate)` and the permission monitor's forced unlock leave
`input_buffer` exactly as it was (they do not clear it). -/
theorem c2_unlock_paths_buffer (hashFn : String → String) (p : String)
    (st : AppStateInner) (now : Nat) (last has : Bool) (kc : Int)
    (flags : EventFlags) (etype : CGEventType) :
    (st.is_locked = true → (trigger_auto_unlock st now).input_buffer = "") ∧
    (st.is_locked = true →
      (handle_keyboard_event hashFn kc flags etype st now).2.is_locked = false →
      (handle_keyboard_event hashFn kc flags etype st now).2.input_buffer = "") ∧
    (HandsOffCore_unlock hashFn p st now).2.input_buffer = st.input_buffer ∧
    (permission_monitor_tick st last has now).1.input_buffer = st.input_buffer := by
  refine ⟨?_, ?_, ?_, ?_⟩
  · intro h
    simp [trigger_auto_unlock, h]
  · intro hl hu
    rcases (handle_locked_invariants hashFn kc flags etype st now hl).1 with h | h
    · rw [h] at hu
      exact Bool.noConfusion hu
    · exact h
  · simp only [HandsOffCore_unlock]
    split <;> simp [set_locked]
  · simp only [permission_monitor_tick, set_locked]
    split_ifs <;> simp

/-- Witness for C2's amended theorem: the auto-unlock clearing a concrete
stale buffer, a concrete matching keystroke leaving the buffer empty, and
concrete unlock / permission-loss transitions preserving a stale `"x"`. -/
theorem c2_unlock_paths_buffer_witness :
    (trigger_auto_unlock { scenario_state "pw" with input_buffer := "ab" } 3).input_buffer
      = "" ∧
    (handle_keyboard_event idHash 8 noFlags CGEventType.keyDown
        (scenario_state "c") 0).2.input_buffer = "" ∧
    (HandsOffCore_unlock idHash "pw"
        { scenario_state "pw" with input_buffer := "x" } 4).2.input_buffer = "x" ∧
    (permission_monitor_tick { scenario_state "pw" with input_buffer := "x" }
        true false 9).1.input_buffer = "x" := by
  refine ⟨?_, ?_, ?_, ?_⟩
  · exact (c2_unlock_paths_buffer idHash "pw"
      { scenario_state "pw" with input_buffer := "ab" } 3 true true 0 noFlags
      CGEventType.keyDown).1 (by decide)
  · exact (c2_unlock_paths_buffer idHash "pw" (scenario_state "c") 0 true true
      8 noFlags CGEventType.keyDown).2.1 (by decide) (by decide)
  · exact ((c2_unlock_paths_buffer idHash "pw"
      { scenario_state "pw" with input_buffer := "x" } 4 true true 0 noFlags
      CGEventType.keyDown).2.2.1).trans (by decide)
  · exact ((c2_unlock_paths_buffer idHash "pw"
      { scenario_state "pw" with input_buffer := "x" } 9 true false 0 noFlags
      CGEventType.keyDown).2.2.2).trans (by decide)

/-- Claim C10: a manual unlock leaves `last_input_time` unchanged — both
`unlock(candidate)` and any keyboard event handled while locked (including
the passphrase-match transition) preserve it, while `trigger_auto_unlock` on
a locked state refreshes it to the current instant. -/
theorem c10_manual_unlock_inactivity_frame (hashFn : String → String)
    (p : String) (st : AppStateInner) (now : Nat) :
    (HandsOffCore_unlock hashFn p st now).2.last_input_time = st.last_input_time ∧
    (∀ (kc : Int) (flags : EventFlags) (etype : CGEventType),
      st.is_locked = true →
      (handle_keyboard_event hashFn kc flags etype st now).2.last_input_time
        = st.last_input_time) ∧
    (st.is_locked = true → (trigger_auto_unlock st now).last_input_time = now) := by
  refine ⟨?_, ?_, ?_⟩
  · simp only [HandsOffCore_unlock]
    split <;> simp [set_locked]
  · intro kc flags etype hl
    exact (handle_locked_invariants hashFn kc flags etype st now hl).2
  · intro h
    simp [trigger_auto_unlock, h]

/-- Witness for C10: at a concrete locked state with `last_input_time = 42`, a
successful `unlock` and a matching keystroke both keep 42, while the safety
auto-unlock resets it to the check time 99. -/
theorem c10_manual_unlock_inactivity_frame_witness :
    (HandsOffCore_unlock idHash "pw"
        { scenario_state "pw" with last_input_time := 42 } 99).2.last_input_time
      = 42 ∧
    (handle_keyboard_event idHash 8 noFlags CGEventType.keyDown
        { scenario_state "c" with last_input_time := 42 } 99).2.last_input_time
      = 42 ∧
    (trigger_auto_unlock { scenario_state "pw" with last_input_time := 42 }
        99).last_input_time = 99 := by
  refine ⟨?_, ?_, ?_⟩
  · exact ((c10_manual_unlock_inactivity_frame idHash "pw"
      { scenario_state "pw" with last_input_time := 42 } 99).1).trans (by decide)
  · exact ((c10_manual_unlock_inactivity_frame idHash "pw"
      { scenario_state "c" with last_input_time := 42 } 99).2.1 8 noFlags
      CGEventType.keyDown (by decide)).trans (by decide)
  · exact (c10_manual_unlock_inactivity_frame idHash "pw"
      { scenario_state "pw" with last_input_time := 42 } 99).2.2 (by decide)

end HandsOff
